import Mathlib

/-!
Shallow embedding of the product-chatbot backend (src/backend/server.js).

The embedding models the two request handlers that carry the decision
logic of the repository:

* the GET /products search filter (substring match on name, description
  and category, with the JavaScript short-circuit OR and its possible
  TypeError on absent optional fields, modelled with Option);
* the POST /chat intent router: empty-message guard, list-all trigger
  phrases, SKU/id direct lookup (including the two regex scans), fuzzy
  token lookup, the 20-entry cap, the missing-API-key error, and the
  extraction of the delegate's reply text.

JavaScript string primitives (toLowerCase, includes, split on whitespace
runs, String(n), replace with character-class filters) are given explicit
executable counterparts below so every theorem can be evaluated on
concrete inputs.
-/

/-- JS s.toLowerCase() restricted to ASCII, as used by the handlers. -/
def jsToLower (s : String) : String :=
  (s.data.map Char.toLower).asString

/-- Naive substring scan on character lists: does the haystack contain
the needle as a contiguous run? -/
def listHasSub (needle : List Char) : List Char → Bool
  | [] => needle.isEmpty
  | c :: cs => needle.isPrefixOf (c :: cs) || listHasSub needle cs

/-- JS hay.includes(sub). -/
def strIncludes (hay sub : String) : Bool :=
  listHasSub sub.data hay.data

/-- Fuel-driven worker for jsSplitWs; each step consumes at least one
character, so fuel = length + 1 always suffices. -/
def jsSplitWsAux : Nat → List Char → List Char → List String
  | 0, _, acc => [acc.reverse.asString]
  | _ + 1, [], acc => [acc.reverse.asString]
  | fuel + 1, c :: cs, acc =>
    if c.isWhitespace then
      acc.reverse.asString :: jsSplitWsAux fuel (cs.dropWhile Char.isWhitespace) []
    else
      jsSplitWsAux fuel cs (c :: acc)

/-- JS s.split(new RegExp of one-or-more whitespace): split on maximal
whitespace runs, keeping the empty leading/trailing fragments JS keeps. -/
def jsSplitWs (s : String) : List String :=
  jsSplitWsAux (s.data.length + 1) s.data []

/-- JS w.replace of every character outside letters/digits by "". -/
def stripNonAlnum (s : String) : String :=
  (s.data.filter Char.isAlphanum).asString

/-- JS m.replace of every character outside letters/digits/space by "". -/
def stripNonAlnumSpace (s : String) : String :=
  (s.data.filter (fun c => c.isAlphanum || c == ' ')).asString

/-- Fuel-driven decimal printer: pushes digits most-significant-first
onto the accumulator, exactly the shape of the usual repr loop. -/
def reprAux : Nat → Nat → List Char → List Char
  | 0, _, acc => acc
  | fuel + 1, n, acc =>
    if n = 0 then acc else reprAux fuel (n / 10) (Char.ofNat (48 + n % 10) :: acc)

/-- Decimal representation of a natural number, no leading zeros. -/
def natRepr (n : Nat) : String :=
  if n = 0 then "0" else (reprAux n n []).asString

/-- JS String(i) for an integer id. -/
def decimalOfInt (i : Int) : String :=
  if i < 0 then "-" ++ natRepr i.natAbs else natRepr i.natAbs

/-- A catalog entry (products.json row). Fields the data model declares
optional, or that the handlers guard against being absent, are Option. -/
structure Product where
  id : Int
  sku : Option String
  name : String
  brand : Option String
  category : Option String
  price : Option Rat
  stock : Option Int
  description : Option String
deriving DecidableEq

/-- products.map(p => p.name). -/
def namesOnly (ps : List Product) : List String :=
  ps.map Product.name

/-- The projection returned by the lookup branches of /chat. -/
structure ProductSummary where
  id : Int
  sku : Option String
  name : String
  brand : Option String
  category : Option String
  price : Option Rat
  stock : Option Int
  description : Option String
deriving DecidableEq

/-- The object literal built in the localMatches reply. -/
def summarize (p : Product) : ProductSummary :=
  ⟨p.id, p.sku, p.name, p.brand, p.category, p.price, p.stock, p.description⟩

/-- The /products filter predicate on one product, with JS short-circuit
OR: name is required, but description and category are read without a
guard, so reaching an absent one is a TypeError, modelled as none.
The argument s is already lowercased. -/
def productPred (s : String) (p : Product) : Option Bool :=
  if strIncludes (jsToLower p.name) s then some true
  else
    match p.description with
    | none => none
    | some d =>
      if strIncludes (jsToLower d) s then some true
      else
        match p.category with
        | none => none
        | some c => some (strIncludes (jsToLower c) s)

/-- result.filter(...) over the catalog; a TypeError anywhere aborts the
request, modelled as none. -/
def searchFilter (s : String) : List Product → Option (List Product)
  | [] => some []
  | p :: ps =>
    match productPred s p with
    | none => none
    | some b =>
      match searchFilter s ps with
      | none => none
      | some l => some (if b then p :: l else l)

/-- GET /products with query q present: empty q is falsy in JS, so no
filtering; otherwise filter with the lowercased term. -/
def search (catalog : List Product) (t : String) : Option (List Product) :=
  if t = "" then some catalog else searchFilter (jsToLower t) catalog

/-- GET /products with the q parameter possibly absent. -/
def productsSearch (catalog : List Product) (q : Option String) : Option (List Product) :=
  match q with
  | none => some catalog
  | some t => search catalog t

/-- The property the spec states for search results: the term occurs
case-insensitively in name, description or category. -/
def fieldMatchB (t : String) (p : Product) : Bool :=
  strIncludes (jsToLower p.name) (jsToLower t)
  || (match p.description with
      | some d => strIncludes (jsToLower d) (jsToLower t)
      | none => false)
  || (match p.category with
      | some c => strIncludes (jsToLower c) (jsToLower t)
      | none => false)

/-- JS word character, the regex class of letters, digits and underscore. -/
def isWordChar (c : Char) : Bool :=
  c.isAlphanum || c == '_'

/-- Case-insensitive comparison of one scanned character against a
lowercase literal character of the pattern. -/
def lowEq (c target : Char) : Bool :=
  c.toLower == target

/-- Greedy run of at most k digits at the head of the list, returning the
digits taken. -/
def takeDigitsUpTo : Nat → List Char → List Char
  | 0, _ => []
  | _ + 1, [] => []
  | k + 1, c :: cs => if c.isDigit then c :: takeDigitsUpTo k cs else []

/-- First alternative of the SKU regex at the current position: literal
"sku", optional one of hyphen/underscore/space, then 1 to 6 digits
(greedy); returns the digit run. -/
def matchSkuAlt1 : List Char → Option (List Char)
  | s :: k :: u :: rest =>
    if lowEq s 's' && lowEq k 'k' && lowEq u 'u' then
      match rest with
      | [] => none
      | c :: cs =>
        if c == '-' || c == '_' || c == ' ' then
          match cs with
          | d :: _ => if d.isDigit then some (takeDigitsUpTo 6 cs) else none
          | [] => none
        else if c.isDigit then some (takeDigitsUpTo 6 (c :: cs)) else none
    else none
  | _ => none

/-- Second alternative: literal "product", any whitespace run, then 1 to
6 digits (greedy); returns the digit run. -/
def matchSkuAlt2 : List Char → Option (List Char)
  | p :: r :: o :: d :: u :: c :: t :: rest =>
    if lowEq p 'p' && lowEq r 'r' && lowEq o 'o' && lowEq d 'd' &&
       lowEq u 'u' && lowEq c 'c' && lowEq t 't' then
      let rest2 := rest.dropWhile Char.isWhitespace
      match rest2 with
      | d1 :: _ => if d1.isDigit then some (takeDigitsUpTo 6 rest2) else none
      | [] => none
    else none
  | _ => none

/-- Left-to-right scan of the message for the SKU regex, first
alternative tried first at each position, as the JS engine does. -/
def skuScan : List Char → Option (List Char)
  | [] => none
  | c :: cs =>
    match matchSkuAlt1 (c :: cs) with
    | some d => some d
    | none =>
      match matchSkuAlt2 (c :: cs) with
      | some d => some d
      | none => skuScan cs

/-- message.match of the SKU regex, already reduced to the digit run the
handler extracts from the whole match. -/
def skuMatch (msg : String) : Option String :=
  (skuScan msg.data).map List.asString

/-- Fuel-driven scan for the first standalone run of 1 to 6 digits: a
maximal digit run bounded on both sides by a word boundary. Runs longer
than 6 digits, or runs glued to a word character, never match, exactly
as the \b-delimited regex behaves with backtracking. -/
def idScanAux : Nat → Bool → List Char → Option (List Char)
  | 0, _, _ => none
  | _ + 1, _, [] => none
  | fuel + 1, prevW, c :: cs =>
    if c.isDigit then
      let run := (c :: cs).takeWhile Char.isDigit
      let rest := (c :: cs).dropWhile Char.isDigit
      let nextW := match rest.head? with
        | some r => isWordChar r
        | none => false
      if !prevW && run.length ≤ 6 && !nextW then some run
      else idScanAux fuel true rest
    else idScanAux fuel (isWordChar c) cs

/-- message.match of the standalone-digit-run regex, reduced to the
captured digits. -/
def idMatch (msg : String) : Option String :=
  (idScanAux (msg.data.length + 1) false msg.data).map List.asString

/-- The list-all trigger test on the lowercased message. -/
def listTrigger (m : String) : Bool :=
  strIncludes m "list" || strIncludes m "names" || strIncludes m "show products" ||
  strIncludes m "product list" || strIncludes m "give the list" || strIncludes m "give list" ||
  strIncludes m "give the list product" || strIncludes m "product names"

/-- p.sku and p.sku.toLowerCase().includes(s): the sku field is guarded,
so an absent sku simply fails the test. -/
def skuHas (p : Product) (s : String) : Bool :=
  match p.sku with
  | some sk => strIncludes (jsToLower sk) s
  | none => false

/-- The filter run when the SKU regex matched, digits s extracted. -/
def skuLookup (ps : List Product) (s : String) : List Product :=
  ps.filter (fun p => decimalOfInt p.id == s || skuHas p s)

/-- The id-equality fallback filter. -/
def idLookup (ps : List Product) (s : String) : List Product :=
  ps.filter (fun p => decimalOfInt p.id == s)

/-- The part of skuLookup that survives when id equality can never hold:
sku containment alone. -/
def skuOnlyLookup (ps : List Product) (s : String) : List Product :=
  ps.filter (fun p => skuHas p s)

/-- localMatches after the skuMatch step. -/
def skuBranch (ps : List Product) (msg : String) : List Product :=
  match skuMatch msg with
  | some s => skuLookup ps s
  | none => []

/-- localMatches after the skuMatch step and the id fallback: the
fallback runs exactly when the previous step left no matches and a
standalone digit run exists. -/
def directMatches (ps : List Product) (msg : String) : List Product :=
  let a := skuBranch ps msg
  if a.isEmpty then
    match idMatch msg with
    | some s => idLookup ps s
    | none => []
  else a

/-- The concatenated haystack of the fuzzy branch: name is read without
a guard, brand, description and category default to the empty string. -/
def haystack (p : Product) : String :=
  jsToLower (p.name ++ " " ++ p.brand.getD "" ++ " " ++ p.description.getD "" ++ " " ++ p.category.getD "")

/-- The fuzzy predicate on one product, m being the lowercased message:
any cleaned word, any token of length at least 3, or the whole cleaned
message occurring in the haystack. -/
def fuzzyPred (m : String) (p : Product) : Bool :=
  let words := ((jsSplitWs m).filter (fun w => !(w == ""))).map stripNonAlnum
  let alphaTokens := ((jsSplitWs m).map stripNonAlnum).filter (fun t => 3 ≤ t.length)
  let hay := haystack p
  let anyWord := words.any (fun w => !(w == "") && strIncludes hay w)
  let anyToken := alphaTokens.any (fun t => !(t == "") && strIncludes hay (jsToLower t))
  let whole := !(m == "") && strIncludes hay (stripNonAlnumSpace m)
  anyWord || anyToken || whole

/-- products.filter over the fuzzy predicate. -/
def fuzzyMatches (ps : List Product) (m : String) : List Product :=
  ps.filter (fuzzyPred m)

/-- The local-match cascade of /chat: direct lookup, then fuzzy lookup
only if direct produced nothing. -/
def localResults (ps : List Product) (msg : String) : List Product :=
  let direct := directMatches ps msg
  if direct.isEmpty then fuzzyMatches ps (jsToLower msg) else direct

/-- The observable outcomes of the /chat handler up to the delegate
call; delegated carries the message that would be forwarded. -/
inductive ChatResponse where
  | badRequest (error : String)
  | listReply (reply : String) (names : List String)
  | productsReply (reply : String) (products : List ProductSummary)
  | textReply (reply : String)
  | configError (error : String)
  | delegated (message : String)
deriving DecidableEq

/-- The POST /chat handler: empty guard, list-all triggers, local
lookups with the 20-entry cap, then the API-key gate before delegation. -/
def chat (ps : List Product) (message : String) (geminiKey : Option String) : ChatResponse :=
  if message = "" then .badRequest "Message is required"
  else if listTrigger (jsToLower message) then
    .listReply "Here are the product names:" (namesOnly ps)
  else
    let localMatches := localResults ps message
    if localMatches.isEmpty then
      match geminiKey with
      | none => .configError "Gemini API key missing. Add GEMINI_API_KEY in .env file."
      | some _ => .delegated message
    else
      .productsReply ("Found " ++ natRepr localMatches.length ++ " matching product(s).")
        ((localMatches.take 20).map summarize)

/-- One part of a delegate candidate's content. -/
structure GPart where
  text : Option String
deriving DecidableEq

/-- The content of a delegate candidate. -/
structure GContent where
  parts : Option (List GPart)
deriving DecidableEq

/-- One candidate of the delegate response body. -/
structure GCandidate where
  content : Option GContent
deriving DecidableEq

/-- The parsed delegate response body (data may itself be null). -/
structure GeminiData where
  candidates : Option (List GCandidate)
deriving DecidableEq

/-- The nested path data.candidates[0].content.parts[0].text, each step
guarded by the JS truthiness chain. -/
def pathText (data : Option GeminiData) : Option String :=
  (((((data.bind GeminiData.candidates).bind List.head?).bind
      GCandidate.content).bind GContent.parts).bind List.head?).bind GPart.text

/-- aiText: the extracted text, except that JS OR also replaces an
extracted empty string, being falsy, by the placeholder. -/
def aiTextOf (data : Option GeminiData) : String :=
  match pathText data with
  | some t => if t = "" then "No response." else t
  | none => "No response."

/-- res.json with reply aiText on a successful delegate call. -/
def delegateResponse (data : Option GeminiData) : ChatResponse :=
  .textReply (aiTextOf data)

/-- Sample catalog entry with all fields present (spec section 8). -/
def pJacket : Product :=
  ⟨1, some "TXJ001", "Blue Jacket", some "Acme", some "Outerwear", none, some 10, some "Warm blue jacket"⟩

/-- Second full sample entry, matching none of the test terms. -/
def pShoe : Product :=
  ⟨2, some "SH002", "Red Shoe", some "Acme", some "Footwear", none, some 5, some "Comfy red shoe"⟩

/-- Sample entry whose optional description and category are absent. -/
def pNoDesc : Product :=
  ⟨7, none, "abc", none, none, none, none, none⟩

/-- Sample entry with a matching name but absent optional fields. -/
def pBlue : Product :=
  ⟨3, none, "blue jacket", none, none, none, none, none⟩

/-- Sample entry with id 42 and a sku not containing 001. -/
def prod42 : Product :=
  ⟨42, some "TXJ777", "Gadget", none, none, none, none, none⟩

/-- A product for the capped-reply catalog. -/
def mkAA (k : Nat) : Product :=
  ⟨Int.ofNat k, none, "aa" ++ natRepr k, none, none, none, none, none⟩

/-- Twenty-one products that all fuzzy-match the message aa. -/
def cat21 : List Product :=
  (List.range 21).map mkAA

/-- Delegate body whose extraction path yields the text hello. -/
def dHello : Option GeminiData :=
  some ⟨some [⟨some ⟨some [⟨some "hello"⟩]⟩⟩]⟩

/-- Delegate body whose candidates list is present but empty. -/
def dMiss : Option GeminiData :=
  some ⟨some []⟩

/-- Delegate body whose extraction path yields the empty string. -/
def dEmptyText : Option GeminiData :=
  some ⟨some [⟨some ⟨some [⟨some ""⟩]⟩⟩]⟩

example : natRepr 42 = "42" := by decide
example : natRepr 0 = "0" := by decide
example : decimalOfInt (-7) = "-7" := by decide
example : skuMatch "order sku-042 now" = some "042" := by decide
example : skuMatch "product  12345678" = some "123456" := by decide
example : skuMatch "no token here" = none := by decide
example : idMatch "abc123 456" = some "456" := by decide
example : idMatch "1234567" = none := by decide
example : jsSplitWs " a  b " = ["", "a", "b", ""] := by decide

theorem reprAux_zero (fuel : Nat) (acc : List Char) : reprAux fuel 0 acc = acc := by
  cases fuel <;> simp [reprAux]

theorem reprAux_head (fuel : Nat) : ∀ (n : Nat) (acc : List Char), n ≠ 0 → n ≤ fuel →
    ∃ c rest, reprAux fuel n acc = c :: rest ∧ c ≠ '0' := by
  induction fuel with
  | zero => intro n _ hn hf; omega
  | succ fuel ih =>
    intro n acc hn hf
    simp only [reprAux, if_neg hn]
    by_cases h10 : n / 10 = 0
    · rw [h10, reprAux_zero]
      refine ⟨_, _, rfl, ?_⟩
      have hlt : n < 10 := by omega
      rw [Nat.mod_eq_of_lt hlt]
      have h1 : 1 ≤ n := Nat.pos_of_ne_zero hn
      interval_cases n <;> decide
    · exact ih (n / 10) _ h10 (by omega)

theorem natRepr_ne_of_leading_zero (n : Nat) (s : String)
    (h2 : 2 ≤ s.data.length) (h0 : s.data.head? = some '0') : natRepr n ≠ s := by
  intro he
  by_cases hn : n = 0
  · subst hn
    rw [← he] at h2
    exact absurd h2 (by decide)
  · obtain ⟨c, rest, hrepr, hc⟩ := reprAux_head n n [] hn (le_refl n)
    rw [← he, natRepr, if_neg hn, hrepr] at h0
    simp [List.asString] at h0
    exact hc h0

theorem decimalOfInt_ne_of_leading_zero (i : Int) (s : String)
    (h2 : 2 ≤ s.data.length) (h0 : s.data.head? = some '0') : decimalOfInt i ≠ s := by
  intro he
  by_cases hi : i < 0
  · rw [decimalOfInt, if_pos hi] at he
    rw [← he] at h0
    have hdata : ("-" ++ natRepr i.natAbs).data = '-' :: (natRepr i.natAbs).data := by
      cases hrep : natRepr i.natAbs with
      | mk l => rfl
    rw [hdata] at h0
    simp only [List.head?_cons, Option.some.injEq] at h0
    exact absurd h0 (by decide)
  · rw [decimalOfInt, if_neg hi] at he
    exact natRepr_ne_of_leading_zero i.natAbs s h2 h0 he

theorem searchFilter_sublist_sound (s : String) : ∀ (ps l : List Product),
    searchFilter s ps = some l → List.Sublist l ps ∧ ∀ p ∈ l, productPred s p = some true := by
  intro ps
  induction ps with
  | nil =>
    intro l h
    simp [searchFilter] at h
    subst h
    exact ⟨List.Sublist.slnil, by simp⟩
  | cons p rest ih =>
    intro l h
    rw [searchFilter] at h
    cases hp : productPred s p with
    | none => rw [hp] at h; exact absurd h (by simp)
    | some b =>
      rw [hp] at h
      cases hrest : searchFilter s rest with
      | none => rw [hrest] at h; exact absurd h (by simp)
      | some l' =>
        rw [hrest] at h
        simp only [Option.some.injEq] at h
        obtain ⟨hsub, hall⟩ := ih l' hrest
        cases b with
        | true =>
          simp only [if_true] at h
          subst h
          refine ⟨List.Sublist.cons₂ p hsub, ?_⟩
          intro q hq
          rcases List.mem_cons.mp hq with hq | hq
          · subst hq; exact hp
          · exact hall q hq
        | false =>
          simp only [Bool.false_eq_true, if_false] at h
          subst h
          exact ⟨List.Sublist.cons p hsub, hall⟩

theorem productPred_true_fieldMatch (t : String) (p : Product)
    (h : productPred (jsToLower t) p = some true) : fieldMatchB t p = true := by
  obtain ⟨pid, psku, pname, pbrand, pcat, pprice, pstock, pdesc⟩ := p
  rw [productPred] at h
  rw [fieldMatchB]
  dsimp only at h ⊢
  cases hb : strIncludes (jsToLower pname) (jsToLower t) with
  | true => simp [hb]
  | false =>
    rw [hb] at h
    simp only [Bool.false_eq_true, if_false] at h
    cases pdesc with
    | none => simp at h
    | some d =>
      dsimp only at h ⊢
      cases hdi : strIncludes (jsToLower d) (jsToLower t) with
      | true => simp [hb, hdi]
      | false =>
        rw [hdi] at h
        simp only [Bool.false_eq_true, if_false] at h
        cases pcat with
        | none => simp at h
        | some c =>
          dsimp only at h ⊢
          simp only [Option.some.injEq] at h
          simp [hb, hdi, h]

theorem searchFilter_none_of_mem (s : String) : ∀ (ps : List Product) (p : Product),
    p ∈ ps → productPred s p = none → searchFilter s ps = none := by
  intro ps
  induction ps with
  | nil => intro p hp _; exact absurd hp (List.not_mem_nil p)
  | cons q rest ih =>
    intro p hp hnone
    rw [searchFilter]
    rcases List.mem_cons.mp hp with hq | hq
    · subst hq
      simp [hnone]
    · cases hq2 : productPred s q with
      | none => rfl
      | some b => simp [ih p hq hnone]

/-- C1 (amended): only the literally empty message is rejected with the
400 error Message is required; the guard tests JS falsiness, which a
whitespace-only message passes. -/
theorem empty_message_rejected (ps : List Product) (key : Option String) :
    chat ps "" key = ChatResponse.badRequest "Message is required" := by
  simp [chat]

/-- C1 (counterexample): a whitespace-only message is not rejected: on a
one-product catalog it reaches the fuzzy branch, where the whole-message
rule matches every product, and a 200 reply is produced. -/
theorem whitespace_message_not_rejected :
    chat [pJacket] " " none
      = ChatResponse.productsReply "Found 1 matching product(s)." [summarize pJacket]
    ∧ chat [pJacket] " " none ≠ ChatResponse.badRequest "Message is required" :=
  ⟨by decide, by decide⟩

/-- C2 (counterexample): in the message 42 sku 001 the SKU-like token
matches with digits 001, the SKU filter yields no product, and the
digit-run fallback nevertheless runs and finds the product with id 42. -/
theorem idFallback_after_failed_skuMatch :
    skuMatch "42 sku 001" = some "001"
    ∧ skuBranch [prod42] "42 sku 001" = []
    ∧ directMatches [prod42] "42 sku 001" = [prod42] :=
  ⟨by decide, by decide, by decide⟩

/-- C2 (amended): the digit-run fallback is applied exactly when the SKU
step left zero matches, including when a SKU-like token did match but
its digits matched no catalog entry. -/
theorem digit_fallback_when_sku_branch_empty (ps : List Product) (msg s i : String)
    (h1 : skuMatch msg = some s) (h2 : skuLookup ps s = []) (h3 : idMatch msg = some i) :
    directMatches ps msg = idLookup ps i := by
  simp [directMatches, skuBranch, h1, h2, h3]

theorem digit_fallback_when_sku_branch_empty_witness :
    directMatches [prod42] "42 sku 001" = idLookup [prod42] "42" :=
  digit_fallback_when_sku_branch_empty [prod42] "42 sku 001" "001" "42"
    (by decide) (by decide) (by decide)

/-- C3: a message containing a list-all trigger resolves to the list-all
branch even when a valid SKU token is present: the reply is the fixed
confirmation with all product names and no lookup result. -/
theorem list_trigger_overrides_sku (ps : List Product) (msg : String) (key : Option String)
    (hTrig : listTrigger (jsToLower msg) = true) (hSku : (skuMatch msg).isSome = true) :
    chat ps msg key = ChatResponse.listReply "Here are the product names:" (namesOnly ps) := by
  have hne : ¬ (msg = "") := by
    intro h
    subst h
    exact absurd hTrig (by decide)
  simp [chat, hne, hTrig]

theorem list_trigger_overrides_sku_witness :
    chat [pJacket] "list sku 1" none
      = ChatResponse.listReply "Here are the product names:" (namesOnly [pJacket]) :=
  list_trigger_overrides_sku [pJacket] "list sku 1" none (by decide) (by decide)

/-- C4: every product returned by a search with a non-empty term matches
the term case-insensitively in name, description or category, and the
result is an order-preserving sublist of the catalog. -/
theorem search_sound_and_order_preserving (catalog : List Product) (t : String)
    (l : List Product) (ht : t ≠ "") (h : search catalog t = some l) :
    List.Sublist l catalog ∧ l.all (fieldMatchB t) = true := by
  rw [search, if_neg ht] at h
  obtain ⟨hsub, hall⟩ := searchFilter_sublist_sound (jsToLower t) catalog l h
  refine ⟨hsub, ?_⟩
  rw [List.all_eq_true]
  intro p hp
  exact productPred_true_fieldMatch t p (hall p hp)

theorem search_sound_and_order_preserving_witness :
    List.Sublist [pJacket] [pJacket, pShoe] ∧ [pJacket].all (fieldMatchB "jack") = true :=
  search_sound_and_order_preserving [pJacket, pShoe] "jack" [pJacket] (by decide) (by decide)

/-- C5: an empty search term, or an absent one, returns the full catalog
unchanged and in order. -/
theorem search_empty_term_identity (catalog : List Product) (h : catalog ≠ []) :
    search catalog "" = some catalog ∧ productsSearch catalog none = some catalog :=
  ⟨rfl, rfl⟩

theorem search_empty_term_identity_witness :
    search [pJacket, pShoe] "" = some [pJacket, pShoe]
    ∧ productsSearch [pJacket, pShoe] none = some [pJacket, pShoe] :=
  search_empty_term_identity [pJacket, pShoe] (by decide)

/-- C6: when the fuzzy branch resolves with at least one match, the
reply text reports the full match count while the products list carries
at most 20 summaries, the excess being dropped. -/
theorem fuzzy_reply_capped_at_twenty (ps : List Product) (msg : String) (key : Option String)
    (h0 : msg ≠ "") (h1 : listTrigger (jsToLower msg) = false)
    (h2 : directMatches ps msg = []) (h3 : fuzzyMatches ps (jsToLower msg) ≠ []) :
    chat ps msg key =
      ChatResponse.productsReply
        ("Found " ++ natRepr (fuzzyMatches ps (jsToLower msg)).length ++ " matching product(s).")
        (((fuzzyMatches ps (jsToLower msg)).take 20).map summarize)
    ∧ (((fuzzyMatches ps (jsToLower msg)).take 20).map summarize).length ≤ 20 := by
  constructor
  · have hloc : localResults ps msg = fuzzyMatches ps (jsToLower msg) := by
      simp [localResults, h2]
    simp [chat, h0, h1, hloc, h3]
  · rw [List.length_map, List.length_take]
    exact min_le_left _ _

theorem fuzzy_reply_capped_at_twenty_witness :
    chat cat21 "aa" none =
      ChatResponse.productsReply
        ("Found " ++ natRepr (fuzzyMatches cat21 (jsToLower "aa")).length ++ " matching product(s).")
        (((fuzzyMatches cat21 (jsToLower "aa")).take 20).map summarize)
    ∧ (((fuzzyMatches cat21 (jsToLower "aa")).take 20).map summarize).length ≤ 20 :=
  fuzzy_reply_capped_at_twenty cat21 "aa" none (by decide) (by decide) (by decide) (by decide)

/-- C7: when the list-all, direct and fuzzy branches all yield nothing
and no API key is configured, /chat fails with the exact configuration
error string and does not delegate. -/
theorem missing_key_config_error (ps : List Product) (msg : String)
    (h0 : msg ≠ "") (h1 : listTrigger (jsToLower msg) = false)
    (h2 : directMatches ps msg = []) (h3 : fuzzyMatches ps (jsToLower msg) = []) :
    chat ps msg none
      = ChatResponse.configError "Gemini API key missing. Add GEMINI_API_KEY in .env file." := by
  have hloc : localResults ps msg = [] := by
    simp [localResults, h2, h3]
  simp [chat, h0, h1, hloc]

theorem missing_key_config_error_witness :
    chat [] "asdkjalksd" none
      = ChatResponse.configError "Gemini API key missing. Add GEMINI_API_KEY in .env file." :=
  missing_key_config_error [] "asdkjalksd" (by decide) (by decide) (by decide) (by decide)

/-- C8 (counterexample): when the extraction path is present all the way
down but holds the empty string, the reply is the placeholder, not the
extracted text, because the JS OR treats the empty string as falsy. -/
theorem extracted_empty_text_not_echoed :
    pathText dEmptyText = some ""
    ∧ delegateResponse dEmptyText ≠ ChatResponse.textReply "" :=
  ⟨rfl, by decide⟩

/-- C8 (amended): a successful delegate response is echoed through the
extraction path when the extracted text is non-empty; when the path is
absent at any level, or the extracted text is the empty string, the
fixed placeholder No response. is used instead of failing. -/
theorem delegate_reply_extraction :
    (∀ (d : Option GeminiData) (t : String), pathText d = some t → t ≠ "" →
        delegateResponse d = ChatResponse.textReply t)
    ∧ (∀ d : Option GeminiData, pathText d = none →
        delegateResponse d = ChatResponse.textReply "No response.") := by
  constructor
  · intro d t hp hne
    simp [delegateResponse, aiTextOf, hp, hne]
  · intro d hp
    simp [delegateResponse, aiTextOf, hp]

theorem delegate_reply_extraction_witness :
    delegateResponse dHello = ChatResponse.textReply "hello"
    ∧ delegateResponse dMiss = ChatResponse.textReply "No response." :=
  ⟨delegate_reply_extraction.1 dHello "hello" rfl (by decide),
   delegate_reply_extraction.2 dMiss rfl⟩

/-- C9 (counterexample): search does not raise an error on every catalog
containing a product with an absent optional field: the OR short-circuits,
so a product whose name already matches is returned even though its
description and category are absent. -/
theorem search_tolerates_missing_fields_on_name_match :
    pBlue.description = none ∧ pBlue.category = none
    ∧ search [pBlue] "blue" = some [pBlue] :=
  ⟨rfl, rfl, by decide⟩

/-- C9 (amended): search with a non-empty term errors exactly when the
predicate reaches an absent field: a product whose name does not contain
the term and whose description is absent, or whose name and present
description both fail and whose category is absent, aborts the whole
search instead of being skipped. -/
theorem search_errors_on_reached_missing_field (ps : List Product) (t : String) (p : Product)
    (hp : p ∈ ps) (ht : t ≠ "")
    (h : (strIncludes (jsToLower p.name) (jsToLower t) = false ∧ p.description = none)
       ∨ (∃ d, strIncludes (jsToLower p.name) (jsToLower t) = false ∧ p.description = some d
           ∧ strIncludes (jsToLower d) (jsToLower t) = false ∧ p.category = none)) :
    search ps t = none := by
  rw [search, if_neg ht]
  apply searchFilter_none_of_mem (jsToLower t) ps p hp
  obtain ⟨pid, psku, pname, pbrand, pcat, pprice, pstock, pdesc⟩ := p
  rcases h with ⟨hn, hd⟩ | ⟨d, hn, hd, hdi, hc⟩
  · dsimp only at hn hd
    subst hd
    rw [productPred]
    simp [hn]
  · dsimp only at hn hd hdi hc
    subst hd
    subst hc
    rw [productPred]
    simp [hn, hdi]

theorem search_errors_on_reached_missing_field_witness :
    search [pNoDesc] "zz" = none :=
  search_errors_on_reached_missing_field [pNoDesc] "zz" pNoDesc (by simp) (by decide)
    (Or.inl (by decide))

/-- C10: a standalone digit run with a leading zero never matches by id
equality, because the string form of an integer id has no leading zeros;
in the SKU branch such digits can produce matches only through
case-insensitive sku containment. -/
theorem leading_zero_digits_no_id_match (ps : List Product) (s : String)
    (h2 : 2 ≤ s.data.length) (h0 : s.data.head? = some '0') :
    idLookup ps s = [] ∧ skuLookup ps s = skuOnlyLookup ps s := by
  have key : ∀ p : Product, (decimalOfInt p.id == s) = false := fun p =>
    beq_eq_false_iff_ne.mpr (decimalOfInt_ne_of_leading_zero p.id s h2 h0)
  constructor
  · rw [idLookup, List.filter_eq_nil_iff]
    intro p _
    simp [key p]
  · rw [skuLookup, skuOnlyLookup]
    apply List.filter_congr
    intro p _
    simp [key p]

theorem leading_zero_digits_no_id_match_witness :
    idLookup [prod42] "001" = [] ∧ skuLookup [prod42] "001" = skuOnlyLookup [prod42] "001" :=
  leading_zero_digits_no_id_match [prod42] "001" (by decide) (by decide)
